import Mathlib

/-!
Shallow embedding of `src/google/cloud/logging_v2/handlers/app_engine.py`
(the App Engine logging handler of the python-logging repository) and
verification of the specification's claims about it.

Modelling conventions:
- Python `dict[str, str]` values are association lists `List (String × String)`
  with Python `dict` semantics: `dictSet` overwrites an existing key in place
  or appends a new key, `dictUpdate` is `d.update(other)`.
- The process environment is an association list; `os.environ.get(k, d)` is
  `Env.getD`.
- Python attribute access `record.x` on an object that lacks the attribute
  raises `AttributeError`; referencing an unbound module-level name raises
  `NameError`. Fallible code therefore runs in `Except PyError`.
- `logging.LogRecord` always carries the standard attributes `msg`, `lineno`,
  `funcName`, `pathname`; the extensible attribute bag (`labels`, `trace`,
  `span_id`, `http_request`, `resource`, and the non-standard `pathName` that
  `emit` reads) is modelled with `Option` fields, `none` meaning the attribute
  is absent so that direct access raises `AttributeError`.
- The ambient request-scoped store read by `get_request_data` is modelled as an
  explicit `AmbientRequest` value threaded to the calls that read it.
-/

namespace AppEngine

/-- Runtime errors Python raises in the modelled code: `NameError` for an
unbound module-level name, `AttributeError` for a missing object attribute.
Each carries the offending name. -/
inductive PyError where
  | nameError (n : String)
  | attributeError (n : String)
deriving DecidableEq, Repr

/-- A Python `dict[str, str]`: association list, no duplicate keys by
construction of the operations below. -/
abbrev Dict := List (String × String)

/-- Python `d[k] = v`: overwrite the value of an existing key in place,
otherwise append the new binding. -/
def dictSet (d : Dict) (k v : String) : Dict :=
  if (d.lookup k).isSome then
    d.map (fun p => if p.1 = k then (k, v) else p)
  else d ++ [(k, v)]

/-- Python `d.update(other)`: set every binding of `other` into `d`, in
order, so later sources win on key collision. -/
def dictUpdate (d other : Dict) : Dict :=
  other.foldl (fun acc p => dictSet acc p.1 p.2) d

/-- The process environment: `os.environ`, a mapping from variable names to
string values. -/
structure Env where
  vars : List (String × String)
deriving DecidableEq, Repr

/-- `k in os.environ` lookup: the value of the variable if set. -/
def Env.lookup (e : Env) (k : String) : Option String :=
  e.vars.lookup k

/-- `os.environ.get(k, d)`: the variable's value if set, else the default. -/
def Env.getD (e : Env) (k d : String) : String :=
  (e.lookup k).getD d

/-- The HTTP request descriptor attached to a record or held in the ambient
request context. Its internal structure is opaque to this module. -/
structure HttpRequest where
  info : List (String × String)
deriving DecidableEq, Repr

/-- `MonitoredResource` as used by this module: a type string plus labels
(`google.cloud.logging_v2.resource.Resource`). -/
structure Resource where
  type : String
  labels : Dict
deriving DecidableEq, Repr

/-- The ambient request-scoped store that the web-framework integration
populates for the lifetime of one inbound request. Outside any request both
fields are `none`. -/
structure AmbientRequest where
  http_request : Option HttpRequest
  trace_id : Option String
deriving DecidableEq, Repr

/-- Modelled from the spec: `get_request_data` lives in
`handlers/_helpers.py`, which is not under `src/`. Per the spec's Context
Extractor contract it inspects the ambient request-scoped store and yields the
HTTP request descriptor and the trace identifier, and it "must be safe to call
with no ambient request in scope — returns absent rather than failing". We
model it as reading the explicit `AmbientRequest` value and returning the pair
`(http_request, trace_id)`, each `none` when absent. -/
def get_request_data (ambient : AmbientRequest) : Option HttpRequest × Option String :=
  (ambient.http_request, ambient.trace_id)

/-- `_DEFAULT_GAE_LOGGER_NAME` (line 30). -/
def _DEFAULT_GAE_LOGGER_NAME : String := "app"

/-- `_GAE_PROJECT_ENV_FLEX` (line 32). -/
def _GAE_PROJECT_ENV_FLEX : String := "GCLOUD_PROJECT"

/-- `_GAE_PROJECT_ENV_STANDARD` (line 33). -/
def _GAE_PROJECT_ENV_STANDARD : String := "GOOGLE_CLOUD_PROJECT"

/-- `_GAE_SERVICE_ENV` (line 34). -/
def _GAE_SERVICE_ENV : String := "GAE_SERVICE"

/-- `_GAE_VERSION_ENV` (line 35). -/
def _GAE_VERSION_ENV : String := "GAE_VERSION"

/-- `_TRACE_ID_LABEL` (line 37). -/
def _TRACE_ID_LABEL : String := "appengine.googleapis.com/trace_id"

/-- Modelled from the spec: `_create_app_engine_resource` lives in
`handlers/_monitored_resources.py`, which is not under `src/`. Per the spec's
Resource Resolver contract it is a pure function of the process environment
that classifies the execution environment into one typed monitored resource,
and it "fails open: if environment variables needed to identify a specific
resource type are missing, falls back to a generic \"global\" resource type
with empty labels rather than erroring". We model it as building the
app-engine resource from the project/service/version variables when all are
set, and returning the generic fallback otherwise; it is total (never
raises). -/
def _create_app_engine_resource (env : Env) : Resource :=
  match (env.lookup _GAE_PROJECT_ENV_FLEX).orElse (fun _ => env.lookup _GAE_PROJECT_ENV_STANDARD),
        env.lookup _GAE_SERVICE_ENV, env.lookup _GAE_VERSION_ENV with
  | some p, some s, some v =>
      { type := "gae_app"
        labels := [("project_id", p), ("module_id", s), ("version_id", v)] }
  | _, _, _ => { type := "global", labels := [] }

/-- A `logging.LogRecord` as this handler consumes it. `msg`, `lineno`,
`funcName` and `pathname` are the standard attributes the logging framework
always sets. The remaining fields are the extensible attribute bag: `none`
means the attribute is not set on the record, so that direct access
(`record.trace`) raises `AttributeError` while `getattr(record, ..., default)`
yields the default. `pathName` (capital N) is the non-standard attribute that
`emit` line 117/119 reads; the framework only ever sets `pathname`. -/
structure LogRecord where
  msg : String
  lineno : Nat
  funcName : String
  pathname : String
  labels : Option Dict
  trace : Option String
  span_id : Option String
  http_request : Option HttpRequest
  resource : Option Resource
  pathName : Option String
deriving DecidableEq, Repr

/-- `super(AppEngineHandler, self).format(record)` (line 111): the logging
framework's record formatting. Record construction and string formatting are
outside the analysed core (spec §1); we model the formatted message as the
record's message text. -/
def format (record : LogRecord) : String :=
  record.msg

/-- The `source_location` dict built by `emit` lines 117-124. -/
structure SourceLocation where
  file : String
  line : String
  function : String
deriving DecidableEq, Repr

/-- The handler state assigned by `AppEngineHandler.__init__` lines 63-72:
logger name, project/service/version ids read from the environment with empty
defaults, and the monitored resource resolved once via `get_gae_resource`. The
transport and client objects are opaque collaborators and are not modelled as
data. -/
structure Handler where
  name : String
  project_id : String
  module_id : String
  version_id : String
  resource : Resource
deriving DecidableEq, Repr

/-- `AppEngineHandler.get_gae_resource` (lines 76-82): returns
`_create_app_engine_resource()`, a function of the process environment. -/
def get_gae_resource (env : Env) : Resource :=
  _create_app_engine_resource env

/-- The field assignments of `AppEngineHandler.__init__` (lines 63-72):
`self.name = name`;
`self.project_id = os.environ.get(_GAE_PROJECT_ENV_FLEX,
os.environ.get(_GAE_PROJECT_ENV_STANDARD, ""))`;
`self.module_id = os.environ.get(_GAE_SERVICE_ENV, "")`;
`self.version_id = os.environ.get(_GAE_VERSION_ENV, "")`;
`self.resource = self.get_gae_resource()`. -/
def initFields (env : Env) (name : String) : Handler :=
  { name := name
    project_id := env.getD _GAE_PROJECT_ENV_FLEX (env.getD _GAE_PROJECT_ENV_STANDARD "")
    module_id := env.getD _GAE_SERVICE_ENV ""
    version_id := env.getD _GAE_VERSION_ENV ""
    resource := get_gae_resource env }

/-- `AppEngineHandler.__init__` (lines 43-74) as a whole: after the field
assignments of lines 63-72, line 74 executes
`self.addFilter(CloudLoggingFilter(self.project_id))`. `CloudLoggingFilter`
is not imported and not defined in this module (the module's imports, lines
21-28, bring in only `get_request_data`, `_create_app_engine_resource` and
`BackgroundThreadTransport`), so evaluating the name raises `NameError` and
construction fails. -/
def init (env : Env) (name : String) : Except PyError Handler :=
  let _self := initFields env name
  .error (.nameError "CloudLoggingFilter")

/-- `AppEngineHandler.get_gae_labels` (lines 84-99): starts from the empty
dict, calls `get_request_data()`, and inserts the trace-id label exactly when
a trace id was found. -/
def get_gae_labels (ambient : AmbientRequest) : Dict :=
  let gae_labels : Dict := []
  let (_, trace_id) := get_request_data ambient
  match trace_id with
  | some t => dictSet gae_labels _TRACE_ID_LABEL t
  | none => gae_labels

/-- `emit` lines 116-124: `if record.lineno and record.funcName and
record.pathName:` build the complete dict, `else` `source_location = None`.
Python `and` short-circuits on the first falsy operand (`0` and `""` are
falsy); `record.pathName` is only evaluated when `lineno` and `funcName` are
truthy, and raises `AttributeError` when the attribute is absent. -/
def computeSourceLocation (record : LogRecord) : Except PyError (Option SourceLocation) :=
  if record.lineno = 0 then .ok none
  else if record.funcName = "" then .ok none
  else
    match record.pathName with
    | none => .error (.attributeError "pathName")
    | some p =>
        if p = "" then .ok none
        else .ok (some { file := p, line := toString record.lineno, function := record.funcName })

/-- The argument tuple `transport.send` would receive (lines 126-135). -/
structure TransportCall where
  record : LogRecord
  message : String
  resource : Resource
  labels : Option Dict
  trace : Option String
  span_id : Option Resource
  http_request : Option HttpRequest
  source_location : Option SourceLocation
deriving DecidableEq, Repr

/-- `AppEngineHandler.emit` (lines 101-135). Steps in source order: format the
message (line 111); `user_labels = getattr(record, "labels", {})` (line 112);
`gae_labels = self.get_gae_labels()` then `gae_labels.update(user_labels)`
(lines 114-115); build `source_location` (lines 117-124, may raise
`AttributeError` on `record.pathName`); then evaluate the arguments of
`self.transport.send(...)` left to right: `record`, `message`,
`resource=getattr(record, "resource", self.resource)` (line 129), then
`labels=(total_labels if total_labels else None)` (line 130) — `total_labels`
is bound nowhere in the module (the merge on line 115 was stored back into
`gae_labels`), so this raises `NameError` and `transport.send` is never
entered; the `trace`, `span_id`, `http_request` and `source_location`
arguments (lines 131-134) are never evaluated. -/
def emit (h : Handler) (ambient : AmbientRequest) (record : LogRecord) :
    Except PyError TransportCall := do
  let message := format record
  let user_labels := record.labels.getD []
  let gae_labels := get_gae_labels ambient
  let gae_labels := dictUpdate gae_labels user_labels
  let source_location ← computeSourceLocation record
  let resource := record.resource.getD h.resource
  let _unused := (message, gae_labels, source_location, resource)
  .error (.nameError "total_labels")

end AppEngine

namespace AppEngine

/-- C1: the claim says the labels passed to the transport by `emit` are the
merge of resource-derived labels, then the trace label, then the
user-supplied labels. The code instead evaluates the unbound name
`total_labels` for the `labels` argument (line 130; the merge on line 115 was
stored into `gae_labels`), so `emit` raises `NameError` and no labels ever
reach the transport: here, for a record carrying caller labels
`{b:3, c:3}` with an ambient trace id in scope, `emit` evaluates to
`NameError("total_labels")`. -/
theorem emit_C1_labels_name_error :
    emit (initFields ⟨[]⟩ "app") ⟨none, some "trace-1"⟩
      { msg := "m", lineno := 0, funcName := "f", pathname := "/srv/app.py",
        labels := some [("b", "3"), ("c", "3")], trace := none, span_id := none,
        http_request := none, resource := none, pathName := none }
      = .error (.nameError "total_labels") := rfl

/-- C2: the claim says `emit` never raises into the caller's logging call
site. For a plain record with no attribute-bag fields (lineno 10, funcName
"main", pathname "/srv/app.py"), `emit` raises `AttributeError` reading the
non-standard attribute `record.pathName` (line 117); `emit` has no
try/except, so the exception propagates to the caller. -/
theorem emit_C2_raises :
    emit (initFields ⟨[]⟩ "app") ⟨none, none⟩
      { msg := "hello", lineno := 10, funcName := "main", pathname := "/srv/app.py",
        labels := none, trace := none, span_id := none, http_request := none,
        resource := none, pathName := none }
      = .error (.attributeError "pathName") := rfl

/-- C3: the claim says `source_location` is complete when the record's path,
line number and function name are all known. For a record whose standard
attributes are all known (pathname "/srv/main.py", lineno 42, funcName
"handler"), the source-location step raises `AttributeError` instead: it
reads the misspelled attribute `record.pathName`, which the logging framework
never sets (the standard attribute is `pathname`). -/
theorem source_location_C3_raises :
    computeSourceLocation
      { msg := "m", lineno := 42, funcName := "handler", pathname := "/srv/main.py",
        labels := none, trace := none, span_id := none, http_request := none,
        resource := none, pathName := none }
      = .error (.attributeError "pathName") := rfl

/-- C4: the claim says the resource is resolved once at initialization and
every non-override `emit` passes the cached resource to the transport. But
`__init__` raises `NameError` on the unbound name `CloudLoggingFilter` (line
74), so no handler is ever constructed: here with `GCLOUD_PROJECT` set,
construction evaluates to `NameError("CloudLoggingFilter")` (and `emit`
independently raises `NameError` on `total_labels` before `transport.send`,
see the C1 theorem). -/
theorem init_C4_name_error :
    init ⟨[(_GAE_PROJECT_ENV_FLEX, "my-project")]⟩ "app"
      = .error (.nameError "CloudLoggingFilter") := rfl

/-- C5: with no relevant environment variables set, the resolver does return
the generic fallback resource and the id fields do default to the empty
string (first four conjuncts), but handler construction does not succeed: it
raises `NameError` on the unbound name `CloudLoggingFilter` (line 74), so the
claim's "construction ... still succeed (never raise)" fails. -/
theorem init_C5_fallback_but_raises :
    get_gae_resource ⟨[]⟩ = { type := "global", labels := [] } ∧
    (initFields ⟨[]⟩ "app").project_id = "" ∧
    (initFields ⟨[]⟩ "app").module_id = "" ∧
    (initFields ⟨[]⟩ "app").version_id = "" ∧
    init ⟨[]⟩ "app" = .error (.nameError "CloudLoggingFilter") :=
  ⟨rfl, rfl, rfl, rfl, rfl⟩

/-- C6: when the ambient request data yields no trace id, `get_gae_labels`
returns the empty label mapping rather than failing (it is a total function
of the ambient store). -/
theorem get_gae_labels_C6_no_trace (ambient : AmbientRequest)
    (h : ambient.trace_id = none) : get_gae_labels ambient = [] := by
  simp [get_gae_labels, get_request_data, h]

/-- Witness for C6 at the empty ambient store (no request in scope). -/
theorem get_gae_labels_C6_witness :
    (⟨none, none⟩ : AmbientRequest).trace_id = none ∧
    get_gae_labels ⟨none, none⟩ = [] :=
  ⟨rfl, get_gae_labels_C6_no_trace ⟨none, none⟩ rfl⟩

/-- C7: the claim says trace, span_id and http_request reach the transport
from the record's attribute bag when set, else from the ambient context. For
a record with all three explicitly set and an ambient request in scope,
`emit` raises `NameError` on `total_labels` (line 130) before the `trace`,
`span_id` and `http_request` arguments are even evaluated, so nothing reaches
the transport (and the argument list at lines 131-133 reads `span_id` from
the record's `resource` attribute and consults the ambient context for none
of the three). -/
theorem emit_C7_name_error :
    emit (initFields ⟨[]⟩ "app")
      ⟨some ⟨[("requestMethod", "GET")]⟩, some "ambient-trace"⟩
      { msg := "m", lineno := 0, funcName := "f", pathname := "/srv/app.py",
        labels := none, trace := some "projects/p/traces/t",
        span_id := some "abc123",
        http_request := some ⟨[("requestMethod", "POST")]⟩,
        resource := none, pathName := none }
      = .error (.nameError "total_labels") := rfl

/-- C8: the claim says a record with no attribute-bag fields and no ambient
context is handed to the transport with trace, span_id, http_request and
source_location absent. Instead `emit` raises `NameError` on `total_labels`
(line 130) and never hands the entry to the transport. -/
theorem emit_C8_raises :
    emit (initFields ⟨[]⟩ "app") ⟨none, none⟩
      { msg := "background job", lineno := 0, funcName := "", pathname := "",
        labels := none, trace := none, span_id := none, http_request := none,
        resource := none, pathName := none }
      = .error (.nameError "total_labels") := rfl

/-- C9: project id resolution precedence at construction (lines 67-69): the
value of `GCLOUD_PROJECT` when set, else the value of `GOOGLE_CLOUD_PROJECT`
when set, else the empty string. -/
theorem project_id_C9_precedence (env : Env) (n : String) :
    (initFields env n).project_id =
      match env.lookup _GAE_PROJECT_ENV_FLEX with
      | some v => v
      | none =>
        match env.lookup _GAE_PROJECT_ENV_STANDARD with
        | some v => v
        | none => "" := by
  simp only [initFields, Env.getD]
  cases env.lookup _GAE_PROJECT_ENV_FLEX <;>
    cases env.lookup _GAE_PROJECT_ENV_STANDARD <;> rfl

/-- C10: `get_gae_labels` returns exactly the singleton mapping
`{appengine.googleapis.com/trace_id: t}` when the ambient trace id is `t`,
and the empty mapping when the ambient trace id is absent; in particular it
has at most one entry and no other key ever appears. -/
theorem get_gae_labels_C10_characterization (ambient : AmbientRequest) :
    get_gae_labels ambient =
      match ambient.trace_id with
      | some t => [(_TRACE_ID_LABEL, t)]
      | none => [] := by
  cases h : ambient.trace_id <;>
    simp [get_gae_labels, get_request_data, dictSet, h]

end AppEngine
